import Mathlib

/-!
Shallow embedding of the onedrive-d sources:
  - onedrive_d/api/drives.py       (DriveRoot, DriveObject)
  - onedrive_d/cli/cli_main.py     (startup sequence, seeding loop, log setup)
  - onedrive_d/tests/__init__.py   (to_underscore_name)
External collaborators (the HTTP session, the filesystem, the task pool and
worker modules that are not part of the source tree) are modelled as explicit
oracles or, where noted, from the specification's words.
-/

namespace OneDriveD

/-! ## HTTP session model (external collaborator)

`requests.Session.get`/`post` either signals expired credentials (the
`OneDriveTokenExpiredError` caught in `drives.py`) or yields an HTTP response
with a status code and a deserialized JSON payload.  A run of a retry loop is
driven by the list of successive session outcomes. -/

inductive SessionResponse (π : Type) where
  | tokenExpired : SessionResponse π
  | http : Nat → π → SessionResponse π

/-- `requests.codes.ok` -/
def httpCodeOk : Nat := 200

/-- `requests.codes.created` -/
def httpCodeCreated : Nat := 201

/-- `errors.OneDriveError(payload)`: the generic remote error raised on an
unexpected status code; it carries the response's JSON payload. -/
structure OneDriveError (π : Type) where
  payload : π

/-! ## drives.py -/

/-- The deserialized Drive dictionary (`d` in `get_all_drives`); only the
fields the code reads are modelled. -/
structure DriveData where
  id : String
  driveType : String
deriving Repr, DecidableEq

/-- The JSON body returned by the `/drives` endpoint: `request.json()['value']`
is the list of drive dictionaries. -/
structure DrivesListPayload where
  value : List DriveData
deriving Repr, DecidableEq

/-- `DriveObject.__init__`: stores the deserialized data and computes
`drive_uri = root.account.client.API_URI + '/drives/' + data['id']`. -/
structure DriveObject where
  data : DriveData
  drive_uri : String
deriving Repr, DecidableEq

/-- `DriveObject(self, d)` as constructed from a root whose account client has
API URI `apiUri`. -/
def mkDriveObject (apiUri : String) (d : DriveData) : DriveObject :=
  { data := d, drive_uri := apiUri ++ "/drives/" ++ d.id }

/-- Python dict assignment `m[k] = v`: replaces the value of an existing key,
otherwise appends the binding (Python dicts preserve insertion order). -/
def dictInsert {β : Type} (m : List (String × β)) (k : String) (v : β) :
    List (String × β) :=
  if m.any (fun e => e.1 = k) then
    m.map (fun e => if e.1 = k then (k, v) else e)
  else
    m ++ [(k, v)]

/-- The loop body `drives = {}; for d in request.json()['value']:
drives[d['id']] = DriveObject(self, d)` of `DriveRoot.get_all_drives`. -/
def buildDrivesDict (apiUri : String) (ds : List DriveData) :
    List (String × DriveObject) :=
  ds.foldl (fun m d => dictInsert m d.id (mkDriveObject apiUri d)) []

/-- Outcome of one complete run of a `DriveRoot` retry loop: the value
returned to the caller (or the `OneDriveError` raised past the loop), plus the
number of `self.account.renew_tokens()` calls the run performed. -/
structure RunOutcome (π α : Type) where
  result : Except (OneDriveError π) α
  renewals : Nat

/-- `DriveRoot.get_all_drives`: `while True: try: request = session.get(uri);
if status != ok: raise OneDriveError(json); return dict of DriveObject
except OneDriveTokenExpiredError: renew_tokens()`.  The run consumes one
session outcome per iteration; `none` means the oracle list was exhausted with
the loop still running (the loop never exits on expiry alone). -/
def get_all_drives (apiUri : String) :
    List (SessionResponse DrivesListPayload) → Nat →
    Option (RunOutcome DrivesListPayload (List (String × DriveObject)))
  | [], _ => none
  | SessionResponse.tokenExpired :: rest, n => get_all_drives apiUri rest (n + 1)
  | SessionResponse.http s p :: _, n =>
    if s ≠ httpCodeOk then some ⟨Except.error ⟨p⟩, n⟩
    else some ⟨Except.ok (buildDrivesDict apiUri p.value), n⟩

/-- URI construction of `DriveRoot.get_drive`: `API_URI + '/drive'`, plus
`'s/' + drive_id` when a drive id is given, plus `'?expand=children'` when
`list_children` is set. -/
def get_drive_uri (apiUri : String) (drive_id : Option String)
    (list_children : Bool) : String :=
  let uri := apiUri ++ "/drive"
  let uri := match drive_id with
    | some d => uri ++ "s/" ++ d
    | none => uri
  if list_children then uri ++ "?expand=children" else uri

/-- `DriveRoot.get_drive`'s retry loop: same shape as `get_all_drives`, with
a single Drive dictionary payload and `DriveObject(self, request.json())` as
result. -/
def get_drive (apiUri : String) :
    List (SessionResponse DriveData) → Nat →
    Option (RunOutcome DriveData DriveObject)
  | [], _ => none
  | SessionResponse.tokenExpired :: rest, n => get_drive apiUri rest (n + 1)
  | SessionResponse.http s p :: _, n =>
    if s ≠ httpCodeOk then some ⟨Except.error ⟨p⟩, n⟩
    else some ⟨Except.ok (mkDriveObject apiUri p), n⟩

/-- `DriveObject.get_item_uri(item_id, item_path)`. -/
def get_item_uri (drive : DriveObject) (item_id item_path : Option String) :
    String :=
  let uri := drive.drive_uri
  if h : item_id.isSome then
    uri ++ "/items/" ++ item_id.get h
  else if h : item_path.isSome then
    uri ++ "/root:/" ++ item_path.get h
  else
    uri ++ "/root"

/-- The request body of `DriveObject.create_dir`: the dict
`name / folder / @name.conflictBehavior` that is serialized and posted. -/
structure CreateDirBody where
  name : String
  folder : Unit
  conflictBehavior : String
deriving Repr, DecidableEq

/-- The POST request `create_dir` issues: target URI and serialized body. -/
structure PostRequest where
  uri : String
  body : CreateDirBody
deriving Repr, DecidableEq

/-- `items.OneDriveItem(response.json())`. -/
structure OneDriveItem (ι : Type) where
  data : ι

/-- `DriveObject.create_dir`: builds the body, posts it to
`get_item_uri(parent_id, parent_path)`, raises `OneDriveError(json)` unless the
status is `requests.codes.created`, else returns `OneDriveItem(json)`.  The
session's response is the (status, payload) oracle pair. -/
def create_dir {ι : Type} (drive : DriveObject) (name : String)
    (parent_id parent_path : Option String) (conflict_behavior : String)
    (status : Nat) (payload : ι) :
    PostRequest × Except (OneDriveError ι) (OneDriveItem ι) :=
  let data : CreateDirBody :=
    { name := name, folder := (), conflictBehavior := conflict_behavior }
  let uri := get_item_uri drive parent_id parent_path
  (⟨uri, data⟩,
    if status ≠ httpCodeCreated then Except.error ⟨payload⟩
    else Except.ok ⟨payload⟩)

/-! ## cli_main.py: task seeding

The stores and pool (`onedrive_d/store/task_pool.py`,
`onedrive_d/common/tasks.py`) are not part of the source tree, so they are
modelled from the specification; `add_initial_tasks` itself follows the
source. -/

/-- `tasks.SynchronizeDirTask(task_base, local_parent_path='', name='')`:
the fields the seeding logic uses. -/
structure SyncDirTask where
  drive_id : String
  local_parent_path : String
  name : String
deriving Repr, DecidableEq

/-- Modelled from the spec: tasks are deduplicated on their
`(drive_ref, local_path)` pair, which is the key `get_task_path` computes. -/
structure TaskKey where
  drive_ref : String
  local_path : String
deriving Repr, DecidableEq

/-- Modelled from the spec: `task_store.get_task_path(task)` maps a task to
its `(drive_ref, local_path)` deduplication key. -/
def get_task_path (t : SyncDirTask) : TaskKey :=
  ⟨t.drive_id, t.local_parent_path ++ "/" ++ t.name⟩

/-- Task lifecycle states of §3 of the spec. -/
inductive TaskStatus where
  | pending
  | running
  | taskDone
  | failed
deriving Repr, DecidableEq

/-- Pending and Running are the non-terminal states. -/
def nonterminal : TaskStatus → Bool
  | TaskStatus.pending => true
  | TaskStatus.running => true
  | TaskStatus.taskDone => false
  | TaskStatus.failed => false

/-- One entry of the task pool: its deduplication key and its status. -/
structure PoolEntry where
  key : TaskKey
  status : TaskStatus
deriving Repr, DecidableEq

/-- Modelled from the spec: the `TaskPool` store of §4.1 (`task_pool.py` is
not in the source tree), reduced to the entry list the seeding logic
observes. -/
structure TaskPool where
  entries : List PoolEntry
deriving Repr, DecidableEq

/-- Modelled from the spec: `has_pending_task(key) -> bool`, the existence
check for a non-terminal task with the given key. -/
def has_pending_task (p : TaskPool) (k : TaskKey) : Bool :=
  p.entries.any (fun e => e.key = k && nonterminal e.status)

/-- Modelled from the spec: `add_task(task) -> bool` inserts the task as
Pending if no non-terminal task exists for its key; returns whether it was
inserted. -/
def add_task (p : TaskPool) (t : SyncDirTask) : TaskPool × Bool :=
  if has_pending_task p (get_task_path t) then (p, false)
  else (⟨p.entries ++ [⟨get_task_path t, TaskStatus.pending⟩]⟩, true)

/-- The root directory-synchronization task built by `add_initial_tasks` for
one drive: `SynchronizeDirTask(task_base, local_parent_path='', name='')`. -/
def rootSyncTask (driveId : String) : SyncDirTask :=
  ⟨driveId, "", ""⟩

/-- `cli_main.add_initial_tasks`: for every drive of
`drive_store.get_all_drives()`, build the root task and add it to the task
store unless `has_pending_task(get_task_path(task))` already holds. -/
def add_initial_tasks (drives : List String) (pool : TaskPool) : TaskPool :=
  drives.foldl
    (fun p d =>
      let task := rootSyncTask d
      if ¬ has_pending_task p (get_task_path task) then (add_task p task).1
      else p)
    pool

/-- Number of pool entries carrying a given key. -/
def countKey (p : TaskPool) (k : TaskKey) : Nat :=
  (p.entries.filter (fun e => e.key = k)).length

/-! ## cli_main.py: seeding loop (`refill_tasks`) -/

/-- Observable steps of one `refill_tasks` run. -/
inductive SeedEvent where
  | logInfoRefill
  | runAddInitialTasks
  | sleepSeconds : Nat → SeedEvent
  | logInfoExiting
  | exitProcess : Nat → SeedEvent
deriving Repr, DecidableEq

/-- Result of a `refill_tasks` run: its event trace, the final task pool, and
the process exit status. -/
structure RefillRun where
  trace : List SeedEvent
  finalPool : TaskPool
  exitCode : Nat
deriving Repr, DecidableEq

/-- `cli_main.refill_tasks`: `while True: logger.info('Refilling initial
tasks...'); add_initial_tasks(); time.sleep(5 * 60)` with
`except (KeyboardInterrupt, InterruptedError): logger.info('Exiting...');
sys.exit(0)`.  The interrupt is modelled as arriving after `k` complete
iterations (the fuel argument). -/
def refill_tasks_run (drives : List String) : Nat → TaskPool → RefillRun
  | 0, pool => ⟨[SeedEvent.logInfoExiting, SeedEvent.exitProcess 0], pool, 0⟩
  | Nat.succ k, pool =>
    let pool1 := add_initial_tasks drives pool
    let r := refill_tasks_run drives k pool1
    ⟨SeedEvent.logInfoRefill :: SeedEvent.runAddInitialTasks ::
       SeedEvent.sleepSeconds (5 * 60) :: r.trace,
     r.finalPool, r.exitCode⟩

/-! ## cli_main.py: startup sequence (`main`) -/

/-- Observable startup steps of `cli_main.main` and its helpers, in the
order the source performs them. -/
inductive StartupEvent where
  | parseArgs
  | fixLogArgs
  | getLogger
  | checkConfigDir
  | loadConfig
  | startNetworkMonitor
  | createPersonalClient
  | openAccountStore
  | openDriveStore
  | getAllAccounts
  | openItemStore
  | openTaskStore
  | startWorker : Nat → StartupEvent
  | enterSeedingLoop
deriving Repr, DecidableEq

/-- `cli_main.load_user_config`: `get_current_user_config()` and
`take_effect()` (configuration load), then `network_monitor.start()`, then the
personal client, then `AccountStorage`, then `DriveStorage`, then
`get_all_accounts()`. -/
def load_user_config_trace : List StartupEvent :=
  [StartupEvent.loadConfig, StartupEvent.startNetworkMonitor,
   StartupEvent.createPersonalClient, StartupEvent.openAccountStore,
   StartupEvent.openDriveStore, StartupEvent.getAllAccounts]

/-- `cli_main.start_task_workers`: `for i in range(num_consumers): start
worker i`. -/
def start_task_workers_trace (n : Nat) : List StartupEvent :=
  (List.range n).map StartupEvent.startWorker

/-- `cli_main.main` with `n` configured consumers:
`fix_log_args(parse_args())`, `get_logger`, `check_config_dir()`,
`load_user_config()`, `load_item_storage()`, `load_task_storage()`,
`start_task_workers()`, `refill_tasks()`. -/
def main_trace (n : Nat) : List StartupEvent :=
  [StartupEvent.parseArgs, StartupEvent.fixLogArgs, StartupEvent.getLogger,
   StartupEvent.checkConfigDir] ++
  load_user_config_trace ++
  [StartupEvent.openItemStore, StartupEvent.openTaskStore] ++
  start_task_workers_trace n ++
  [StartupEvent.enterSeedingLoop]

/-- Index of the first occurrence of an event in a trace. -/
def firstIdx (tr : List StartupEvent) (e : StartupEvent) : Option Nat :=
  tr.findIdx? (fun x => x = e)

/-- `eventBefore tr a b`: both events occur and the first occurrence of `a`
precedes the first occurrence of `b`. -/
def eventBefore (tr : List StartupEvent) (a b : StartupEvent) : Bool :=
  match firstIdx tr a, firstIdx tr b with
  | some i, some j => i < j
  | _, _ => false

/-- The startup order asserted by the claim: configuration before the store
openings, every store opening before the network monitor start, the monitor
start before every worker start, and every worker start before the seeding
loop. -/
def claimedStartupOrder (tr : List StartupEvent) (n : Nat) : Bool :=
  eventBefore tr StartupEvent.loadConfig StartupEvent.openAccountStore &&
  eventBefore tr StartupEvent.openAccountStore StartupEvent.startNetworkMonitor &&
  eventBefore tr StartupEvent.openDriveStore StartupEvent.startNetworkMonitor &&
  eventBefore tr StartupEvent.openItemStore StartupEvent.startNetworkMonitor &&
  eventBefore tr StartupEvent.openTaskStore StartupEvent.startNetworkMonitor &&
  (List.range n).all (fun i =>
    eventBefore tr StartupEvent.startNetworkMonitor (StartupEvent.startWorker i) &&
    eventBefore tr (StartupEvent.startWorker i) StartupEvent.enterSeedingLoop)

/-! ## cli_main.py: configuration directory check and worker fatality -/

/-- Result of `cli_main.check_config_dir`: either the function returns and the
process continues, or it exits with a logged critical message and a status
code. -/
inductive ConfigCheckResult where
  | proceed
  | exitWith : String → Nat → ConfigCheckResult
deriving Repr, DecidableEq

/-- `cli_main.check_config_dir`: `if not os.path.isdir(CONFIG_DIR):
logger.critical(...); sys.exit(1)`.  The filesystem is the `dirExists`
oracle. -/
def check_config_dir (configDir : String) (dirExists : Bool) :
    ConfigCheckResult :=
  if !dirExists then
    ConfigCheckResult.exitWith
      ("Configuration directory " ++ configDir ++
        " does not exist. Please run onedrived-pref first.") 1
  else ConfigCheckResult.proceed

/-- Outcomes a task handler reports to its worker (spec §4.3/§7). -/
inductive TaskOutcome where
  | success
  | retryable
  | terminal
deriving Repr, DecidableEq

/-- Actions a worker may take after a task finishes; `exitProcess` is the
action that would terminate the daemon. -/
inductive WorkerAction where
  | completeTask
  | requeueTask
  | markFailed
  | exitProcess : Nat → WorkerAction
deriving Repr, DecidableEq

/-- Modelled from the spec: `task_worker.TaskConsumer` is not in the source
tree; per §7, task handlers never raise past the worker boundary and every
failure is classified into retry-or-terminal, so the worker's reaction to an
outcome never terminates the process. -/
def worker_handle_outcome : TaskOutcome → WorkerAction
  | TaskOutcome.success => WorkerAction.completeTask
  | TaskOutcome.retryable => WorkerAction.requeueTask
  | TaskOutcome.terminal => WorkerAction.markFailed

/-- Whether a worker action terminates the daemon process. -/
def isExitAction : WorkerAction → Bool
  | WorkerAction.exitProcess _ => true
  | _ => false

/-! ## cli_main.py: argument parsing and log setup -/

/-- The `--log-level` choices of `parse_args`. -/
inductive LogLevel where
  | debug
  | info
  | warning
  | levelError
  | critical
deriving Repr, DecidableEq

/-- `getattr(logging, args.log_level)`: the numeric level of the `logging`
module. -/
def levelValue : LogLevel → Nat
  | LogLevel.debug => 10
  | LogLevel.info => 20
  | LogLevel.warning => 30
  | LogLevel.levelError => 40
  | LogLevel.critical => 50

/-- The argument namespace produced by `cli_main.parse_args`. -/
structure CliArgs where
  log_level : LogLevel
  log_file : Option String
deriving Repr, DecidableEq

/-- `cli_main.parse_args`: `--log-level` defaults to DEBUG, `--log-file`
defaults to None. -/
def parse_args (cliLevel : Option LogLevel) (cliFile : Option String) :
    CliArgs :=
  { log_level := cliLevel.getD LogLevel.debug, log_file := cliFile }

/-- Observable effects of `cli_main.fix_log_args`. -/
inductive LogEffect where
  | openTruncate : String → LogEffect
  | stderrPrint : String → LogEffect
  | initLogger : Nat → Option String → LogEffect
deriving Repr, DecidableEq

/-- `cli_main.fix_log_args`: `try: if args.log_file is not None:
open(args.log_file, 'w')` — a successful `open(..., 'w')` truncates the file —
`except OSError/IOError as e: print('Cannot open log file ...', file=stderr);
args.log_file = None`, then `logger_factory.init_logger(min_level=getattr(
logging, args.log_level), path=args.log_file)` and return args.  The
filesystem is the `openResult` oracle: `none` means the open succeeded,
`some e` means it raised an error rendered as `e`. -/
def fix_log_args (openResult : String → Option String) (args : CliArgs) :
    CliArgs × List LogEffect :=
  let step : CliArgs × List LogEffect :=
    match args.log_file with
    | none => (args, [])
    | some p =>
      match openResult p with
      | none => (args, [LogEffect.openTruncate p])
      | some e =>
        ({ args with log_file := none },
         [LogEffect.stderrPrint
            ("Cannot open log file " ++ p ++ ": " ++ e ++ ". Use stderr.")])
  (step.1,
   step.2 ++ [LogEffect.initLogger (levelValue step.1.log_level) step.1.log_file])

/-! ## tests/__init__.py: `to_underscore_name`

The regex `camel_to_underscore = ((?<=[a-z0-9])[A-Z]|(?!^)[A-Z](?=[a-z]))`
matches a single uppercase ASCII letter that is either preceded by a lowercase
ASCII letter or digit, or not at the string start and followed by a lowercase
ASCII letter.  `sub(r'_\1', s)` prepends an underscore to every match
(lookarounds consume nothing, so matching advances one character at a time
over the original string), and `.lower()` lowercases the result. -/

/-- The regex class `[A-Z]` (ASCII). -/
def isUpperAZ (c : Char) : Bool :=
  65 ≤ c.toNat && c.toNat ≤ 90

/-- The regex class `[a-z]` (ASCII). -/
def isLowerAZ (c : Char) : Bool :=
  97 ≤ c.toNat && c.toNat ≤ 122

/-- The regex class `[0-9]` (ASCII). -/
def isDigit09 (c : Char) : Bool :=
  48 ≤ c.toNat && c.toNat ≤ 57

/-- Whether `camel_to_underscore` matches at a position: current character
`c`, preceding character of the original string `prev` (`none` at the string
start), following character `next`. -/
def camel_to_underscore_match (prev : Option Char) (c : Char)
    (next : Option Char) : Bool :=
  isUpperAZ c &&
    ((match prev with
      | some q => isLowerAZ q || isDigit09 q
      | none => false) ||
     (prev.isSome &&
      (match next with
       | some q => isLowerAZ q
       | none => false)))

/-- `camel_to_underscore.sub(r'_\1', s)`: scan the original string left to
right, inserting an underscore before every matching character. -/
def camel_sub : Option Char → List Char → List Char
  | _, [] => []
  | prev, c :: rest =>
    if camel_to_underscore_match prev c rest.head? then
      '_' :: c :: camel_sub (some c) rest
    else
      c :: camel_sub (some c) rest

/-- Python `str.lower()` on the characters the regex can produce: ASCII
uppercase letters map to lowercase, everything else is unchanged. -/
def asciiLower (c : Char) : Char :=
  if isUpperAZ c then Char.ofNat (c.toNat + 32) else c

/-- `tests.to_underscore_name(s)`:
`camel_to_underscore.sub(r'_\1', s).lower()`. -/
def to_underscore_name (s : String) : String :=
  String.mk ((camel_sub none s.data).map asciiLower)

/-! ## Helper lemmas -/

theorem get_all_drives_skip_expired (apiUri : String) (k : Nat)
    (rs : List (SessionResponse DrivesListPayload)) (n : Nat) :
    get_all_drives apiUri
        (List.replicate k SessionResponse.tokenExpired ++ rs) n =
      get_all_drives apiUri rs (n + k) := by
  induction k generalizing n with
  | zero => simp
  | succ k ih =>
    rw [List.replicate_succ, List.cons_append]
    show get_all_drives apiUri (List.replicate k SessionResponse.tokenExpired ++ rs) (n + 1) = _
    rw [ih (n + 1)]
    congr 1
    omega

theorem get_drive_skip_expired (apiUri : String) (k : Nat)
    (rs : List (SessionResponse DriveData)) (n : Nat) :
    get_drive apiUri (List.replicate k SessionResponse.tokenExpired ++ rs) n =
      get_drive apiUri rs (n + k) := by
  induction k generalizing n with
  | zero => simp
  | succ k ih =>
    rw [List.replicate_succ, List.cons_append]
    show get_drive apiUri (List.replicate k SessionResponse.tokenExpired ++ rs) (n + 1) = _
    rw [ih (n + 1)]
    congr 1
    omega

theorem get_all_drives_http_head (apiUri : String) (s : Nat)
    (p : DrivesListPayload) (rest : List (SessionResponse DrivesListPayload))
    (n : Nat) :
    get_all_drives apiUri (SessionResponse.http s p :: rest) n =
      some ⟨if s = httpCodeOk then Except.ok (buildDrivesDict apiUri p.value)
            else Except.error ⟨p⟩, n⟩ := by
  by_cases hs : s = httpCodeOk <;> simp [get_all_drives, hs]

theorem get_drive_http_head (apiUri : String) (s : Nat) (p : DriveData)
    (rest : List (SessionResponse DriveData)) (n : Nat) :
    get_drive apiUri (SessionResponse.http s p :: rest) n =
      some ⟨if s = httpCodeOk then Except.ok (mkDriveObject apiUri p)
            else Except.error ⟨p⟩, n⟩ := by
  by_cases hs : s = httpCodeOk <;> simp [get_drive, hs]

theorem dictInsert_all {β : Type} (P : String × β → Bool)
    (m : List (String × β)) (k : String) (v : β)
    (hm : m.all P = true) (hv : P (k, v) = true) :
    (dictInsert m k v).all P = true := by
  unfold dictInsert
  rw [List.all_eq_true] at hm
  split
  · rw [List.all_eq_true]
    intro x hx
    obtain ⟨e, he, rfl⟩ := List.mem_map.1 hx
    by_cases hek : e.1 = k
    · simp only [hek, if_pos rfl]
      exact hv
    · rw [if_neg hek]
      exact hm e he
  · rw [List.all_eq_true]
    intro x hx
    rcases List.mem_append.1 hx with hx | hx
    · exact hm x hx
    · rcases List.mem_singleton.1 hx with rfl
      exact hv

theorem buildDrivesDict_keyed_aux (apiUri : String) (ds : List DriveData)
    (m : List (String × DriveObject))
    (hm : m.all (fun pr => pr.2.data.id == pr.1) = true) :
    (ds.foldl (fun m d => dictInsert m d.id (mkDriveObject apiUri d)) m).all
        (fun pr => pr.2.data.id == pr.1) = true := by
  induction ds generalizing m with
  | nil => exact hm
  | cons d ds ih =>
    rw [List.foldl_cons]
    exact ih _ (dictInsert_all _ m d.id (mkDriveObject apiUri d) hm (by simp [mkDriveObject]))

theorem add_initial_tasks_preserves_pending (drives : List String)
    (pool : TaskPool) (k : TaskKey)
    (h : has_pending_task pool k = true) :
    has_pending_task (add_initial_tasks drives pool) k = true ∧
    countKey (add_initial_tasks drives pool) k = countKey pool k := by
  induction drives generalizing pool with
  | nil => exact ⟨h, rfl⟩
  | cons d ds ih =>
    by_cases hd : has_pending_task pool (get_task_path (rootSyncTask d)) = true
    · have hstep : add_initial_tasks (d :: ds) pool = add_initial_tasks ds pool := by
        simp [add_initial_tasks, hd]
      rw [hstep]
      exact ih pool h
    · have hne : get_task_path (rootSyncTask d) ≠ k := by
        intro he
        rw [he] at hd
        exact hd h
      have hstep : add_initial_tasks (d :: ds) pool =
          add_initial_tasks ds
            ⟨pool.entries ++
              [⟨get_task_path (rootSyncTask d), TaskStatus.pending⟩]⟩ := by
        simp [add_initial_tasks, add_task, hd]
      have hp' : has_pending_task
          ⟨pool.entries ++
            [⟨get_task_path (rootSyncTask d), TaskStatus.pending⟩]⟩ k = true := by
        simp only [has_pending_task, List.any_append] at h ⊢
        rw [h]
        rfl
      have hc' : countKey
          ⟨pool.entries ++
            [⟨get_task_path (rootSyncTask d), TaskStatus.pending⟩]⟩ k =
          countKey pool k := by
        simp [countKey, List.filter_append, hne]
      rw [hstep]
      obtain ⟨h1, h2⟩ := ih _ hp'
      exact ⟨h1, h2.trans hc'⟩

theorem refill_tasks_run_exit_zero (drives : List String) (k : Nat)
    (pool : TaskPool) : (refill_tasks_run drives k pool).exitCode = 0 := by
  induction k generalizing pool with
  | zero => rfl
  | succ k ih => simp [refill_tasks_run, ih]

theorem asciiLower_of_not_upper (c : Char) (h : isUpperAZ c = false) :
    asciiLower c = c := by
  unfold asciiLower
  rw [h]
  rfl

theorem toNat_ofNat_of_valid (m : Nat) (h : Nat.isValidChar m) :
    (Char.ofNat m).toNat = m := by
  rw [Char.ofNat, dif_pos h]
  rfl

theorem asciiLower_not_upper (c : Char) :
    isUpperAZ (asciiLower c) = false := by
  unfold asciiLower
  by_cases h : isUpperAZ c = true
  · rw [if_pos h]
    unfold isUpperAZ at h ⊢
    have h1 : 65 ≤ c.toNat ∧ c.toNat ≤ 90 := by
      simpa [Bool.and_eq_true] using h
    have hv : Nat.isValidChar (c.toNat + 32) := Or.inl (by omega)
    rw [toNat_ofNat_of_valid _ hv]
    have h2 : ¬ (c.toNat + 32 ≤ 90) := by omega
    simp [h2]
  · rw [if_neg h]
    simpa using h

theorem asciiLower_idem (c : Char) :
    asciiLower (asciiLower c) = asciiLower c :=
  asciiLower_of_not_upper _ (asciiLower_not_upper c)

theorem camel_sub_of_no_upper (l : List Char)
    (h : ∀ c ∈ l, isUpperAZ c = false) :
    ∀ prev, camel_sub prev l = l := by
  induction l with
  | nil => intro prev; rfl
  | cons c rest ih =>
    intro prev
    have hc : isUpperAZ c = false := h c (List.mem_cons_self c rest)
    have hm : camel_to_underscore_match prev c rest.head? = false := by
      simp [camel_to_underscore_match, hc]
    simp only [camel_sub, hm]
    rw [ih (fun x hx => h x (List.mem_cons_of_mem c hx)) (some c)]
    simp

theorem map_asciiLower_idem (l : List Char) :
    (l.map asciiLower).map asciiLower = l.map asciiLower := by
  induction l with
  | nil => rfl
  | cons c rest ih => simp [asciiLower_idem, ih]

/-! ## Claim theorems -/

/-- C9: `get_item_uri` returns the item-by-id URI whenever `item_id` is
non-None (ignoring any `item_path` also supplied), the item-by-path URI when
`item_id` is None and `item_path` is non-None, and the drive-root URI when
both are None. -/
theorem get_item_uri_cases (d : DriveObject) (i p : String)
    (po : Option String) :
    get_item_uri d (some i) po = d.drive_uri ++ "/items/" ++ i
    ∧ get_item_uri d none (some p) = d.drive_uri ++ "/root:/" ++ p
    ∧ get_item_uri d none none = d.drive_uri ++ "/root" := by
  refine ⟨?_, ?_, ?_⟩ <;> rfl

/-- C5: when the configuration directory is absent, `check_config_dir` exits
the process with status 1 after a critical message directing the operator to
run `onedrived-pref` first; when it exists the function proceeds; and a
worker's reaction to any task outcome never terminates the process. -/
theorem check_config_dir_spec (configDir : String) :
    check_config_dir configDir false =
      ConfigCheckResult.exitWith
        ("Configuration directory " ++ configDir ++
          " does not exist. Please run onedrived-pref first.") 1
    ∧ check_config_dir configDir true = ConfigCheckResult.proceed
    ∧ ∀ o : TaskOutcome, isExitAction (worker_handle_outcome o) = false := by
  refine ⟨rfl, rfl, ?_⟩
  intro o
  cases o <;> rfl

/-- C6: when `--log-file` names a path that cannot be opened for writing,
`fix_log_args` prints a warning to standard error and initializes logging with
no log file; when the path is writable or no `--log-file` is given, the logger
is initialized with the given path (or none) and the chosen minimum level. -/
theorem fix_log_args_spec (openResult : String → Option String)
    (lvl : LogLevel) (p : String) :
    fix_log_args openResult { log_level := lvl, log_file := some p } =
      (match openResult p with
       | none =>
         ({ log_level := lvl, log_file := some p },
          [LogEffect.openTruncate p,
           LogEffect.initLogger (levelValue lvl) (some p)])
       | some e =>
         ({ log_level := lvl, log_file := none },
          [LogEffect.stderrPrint
             ("Cannot open log file " ++ p ++ ": " ++ e ++ ". Use stderr."),
           LogEffect.initLogger (levelValue lvl) none]))
    ∧ fix_log_args openResult { log_level := lvl, log_file := none } =
        ({ log_level := lvl, log_file := none },
         [LogEffect.initLogger (levelValue lvl) none]) := by
  constructor
  · cases h : openResult p <;> simp [fix_log_args, h]
  · rfl

/-- C8: when `--log-file` names a writable path, the writability probe of
`fix_log_args` opens the file for writing — truncating it — before the logger
is initialized (hence before any log record is written), and the argument
fields are returned unchanged. -/
theorem fix_log_args_truncates_writable (openResult : String → Option String)
    (lvl : LogLevel) (p : String) (h : openResult p = none) :
    fix_log_args openResult { log_level := lvl, log_file := some p } =
      ({ log_level := lvl, log_file := some p },
       [LogEffect.openTruncate p,
        LogEffect.initLogger (levelValue lvl) (some p)]) := by
  simp [fix_log_args, h]

/-- C8 witness: the theorem applied to the always-writable filesystem at a
concrete path. -/
theorem fix_log_args_truncates_writable_witness :
    (fun _ : String => (none : Option String)) "a.log" = none
    ∧ fix_log_args (fun _ : String => (none : Option String))
        { log_level := LogLevel.debug, log_file := some "a.log" } =
      ({ log_level := LogLevel.debug, log_file := some "a.log" },
       [LogEffect.openTruncate "a.log",
        LogEffect.initLogger 10 (some "a.log")]) :=
  ⟨rfl, fix_log_args_truncates_writable _ LogLevel.debug "a.log" rfl⟩

/-- C4: the seeding loop repeats `log, add_initial_tasks, sleep(5*60)` each
iteration; when the interrupt arrives it logs an exit message and exits the
process with status 0, and the final pool is `add_initial_tasks` iterated once
per completed iteration. -/
theorem refill_tasks_spec (drives : List String) (k : Nat) (pool : TaskPool) :
    (refill_tasks_run drives k pool).trace =
      (List.replicate k
        [SeedEvent.logInfoRefill, SeedEvent.runAddInitialTasks,
         SeedEvent.sleepSeconds (5 * 60)]).flatten ++
        [SeedEvent.logInfoExiting, SeedEvent.exitProcess 0]
    ∧ (refill_tasks_run drives k pool).exitCode = 0
    ∧ (refill_tasks_run drives k pool).finalPool =
        (add_initial_tasks drives)^[k] pool := by
  refine ⟨?_, refill_tasks_run_exit_zero drives k pool, ?_⟩
  · induction k generalizing pool with
    | zero => rfl
    | succ k ih => simp [refill_tasks_run, List.replicate_succ, ih]
  · induction k generalizing pool with
    | zero => rfl
    | succ k ih =>
      simp [refill_tasks_run, ih, Function.iterate_succ_apply]

/-- C10: `to_underscore_name` is idempotent: applying it twice equals applying
it once, because its output contains no uppercase ASCII letters and the
substitution pattern only matches uppercase ASCII letters. -/
theorem to_underscore_name_idempotent (s : String) :
    to_underscore_name (to_underscore_name s) = to_underscore_name s := by
  unfold to_underscore_name
  have hdata : (String.mk ((camel_sub none s.data).map asciiLower)).data
      = (camel_sub none s.data).map asciiLower := rfl
  rw [hdata]
  rw [camel_sub_of_no_upper ((camel_sub none s.data).map asciiLower)
    (fun c hc => by
      obtain ⟨x, _, rfl⟩ := List.mem_map.1 hc
      exact asciiLower_not_upper x) none]
  rw [map_asciiLower_idem]

/-- C1 counterexample: it is not the case that every completed
`get_all_drives` run renews credentials at most once.  The run driven by two
expiry signals followed by a success performs two renewals and then returns
normally, so the loop neither stops at one renewal nor surfaces any error. -/
theorem get_all_drives_not_single_renewal :
    ¬ (∀ (apiUri : String) (rs : List (SessionResponse DrivesListPayload))
         (out : RunOutcome DrivesListPayload (List (String × DriveObject))),
        get_all_drives apiUri rs 0 = some out → out.renewals ≤ 1) := by
  intro h
  have h2 := h "u"
      [SessionResponse.tokenExpired, SessionResponse.tokenExpired,
       SessionResponse.http 200 ⟨[]⟩]
      ⟨Except.ok [], 2⟩ rfl
  exact absurd h2 (by decide)

/-- C1 (amended): on every expired-credentials signal, `get_all_drives` and
`get_drive` renew credentials and re-issue the same request, repeating without
bound for every further expiry signal; a run that sees `k` expiry signals
before its first non-expiry response performs exactly `k` renewals and its
outcome is that of the first non-expiry response, the caller never observing
the expiry condition; a run that sees only expiry signals never returns. -/
theorem drives_renew_until_first_nonexpiry
    (apiUri : String) (k s : Nat) (p : DrivesListPayload)
    (rest : List (SessionResponse DrivesListPayload))
    (q : DriveData) (rest2 : List (SessionResponse DriveData)) :
    get_all_drives apiUri
        (List.replicate k SessionResponse.tokenExpired ++
          SessionResponse.http s p :: rest) 0 =
      some ⟨if s = httpCodeOk then Except.ok (buildDrivesDict apiUri p.value)
            else Except.error ⟨p⟩, k⟩
    ∧ get_drive apiUri
        (List.replicate k SessionResponse.tokenExpired ++
          SessionResponse.http s q :: rest2) 0 =
      some ⟨if s = httpCodeOk then Except.ok (mkDriveObject apiUri q)
            else Except.error ⟨q⟩, k⟩
    ∧ get_all_drives apiUri (List.replicate k SessionResponse.tokenExpired) 0 =
        none
    ∧ get_drive apiUri (List.replicate k SessionResponse.tokenExpired) 0 =
        none := by
  refine ⟨?_, ?_, ?_, ?_⟩
  · rw [get_all_drives_skip_expired, get_all_drives_http_head]
    simp
  · rw [get_drive_skip_expired, get_drive_http_head]
    simp
  · have h0 := get_all_drives_skip_expired apiUri k [] 0
    rw [List.append_nil] at h0
    rw [h0]
    rfl
  · have h0 := get_drive_skip_expired apiUri k [] 0
    rw [List.append_nil] at h0
    rw [h0]
    rfl

/-- C7: `get_all_drives` raises the generic remote error carrying the
response payload exactly when the status differs from OK, returning on success
the dictionary of drive objects keyed by drive id; `create_dir` posts to the
parent item URI and raises the generic error carrying the payload exactly when
the status differs from Created, returning the created item on success. -/
theorem remote_error_iff_bad_status {ι : Type} (apiUri : String) (s : Nat)
    (p : DrivesListPayload) (rest : List (SessionResponse DrivesListPayload))
    (ds : List DriveData) (drive : DriveObject) (nm : String)
    (pid ppath : Option String) (cb : String) (status : Nat) (payload : ι) :
    get_all_drives apiUri (SessionResponse.http s p :: rest) 0 =
      some ⟨if s = httpCodeOk then Except.ok (buildDrivesDict apiUri p.value)
            else Except.error ⟨p⟩, 0⟩
    ∧ (buildDrivesDict apiUri ds).all (fun pr => pr.2.data.id == pr.1) = true
    ∧ create_dir drive nm pid ppath cb status payload =
        (⟨get_item_uri drive pid ppath, ⟨nm, (), cb⟩⟩,
         if status = httpCodeCreated then Except.ok ⟨payload⟩
         else Except.error ⟨payload⟩) := by
  refine ⟨get_all_drives_http_head apiUri s p rest 0,
    buildDrivesDict_keyed_aux apiUri ds [] rfl, ?_⟩
  by_cases hs : status = httpCodeCreated <;> simp [create_dir, hs]

/-- C2: for every drive, the seeding routine enqueues a root
directory-synchronization task only when the pool reports no pending task for
its key, so running it while a root task for some drive is already pending
adds no second task for that drive. -/
theorem add_initial_tasks_no_duplicate_root (drives : List String)
    (pool : TaskPool) (d : String)
    (h : has_pending_task pool (get_task_path (rootSyncTask d)) = true) :
    countKey (add_initial_tasks drives pool)
        (get_task_path (rootSyncTask d)) =
      countKey pool (get_task_path (rootSyncTask d)) :=
  (add_initial_tasks_preserves_pending drives pool _ h).2

/-- C2 witness: seeding two drives while drive `d1` already has a pending
root task leaves the number of `d1` root entries unchanged. -/
theorem add_initial_tasks_no_duplicate_root_witness :
    has_pending_task
        ⟨[⟨⟨"d1", "/"⟩, TaskStatus.pending⟩]⟩
        (get_task_path (rootSyncTask "d1")) = true
    ∧ countKey
        (add_initial_tasks ["d1", "d2"]
          ⟨[⟨⟨"d1", "/"⟩, TaskStatus.pending⟩]⟩)
        (get_task_path (rootSyncTask "d1")) =
      countKey ⟨[⟨⟨"d1", "/"⟩, TaskStatus.pending⟩]⟩
        (get_task_path (rootSyncTask "d1")) :=
  ⟨by decide,
   add_initial_tasks_no_duplicate_root ["d1", "d2"] _ "d1" (by decide)⟩

/-- C3 counterexample: the startup order asserted by the claim — configuration
load, then the persisted store openings, then the network monitor start, then
the workers, then the seeding loop — is violated by the program's startup
trace (with one worker): `main` starts the network monitor before it opens the
account, drive, item and task stores. -/
theorem claimed_startup_order_fails :
    claimedStartupOrder (main_trace 1) 1 = false := by decide

/-- C3 (amended): on startup the process loads configuration, starts the
network monitor, opens the persisted stores (accounts, drives, items, tasks),
starts the N task workers, and then enters the seeding loop, which on an
interrupt exits the process with status 0. -/
theorem main_startup_order (n : Nat) (drives : List String) (k : Nat)
    (pool : TaskPool) :
    main_trace n =
      [StartupEvent.parseArgs, StartupEvent.fixLogArgs, StartupEvent.getLogger,
       StartupEvent.checkConfigDir, StartupEvent.loadConfig,
       StartupEvent.startNetworkMonitor, StartupEvent.createPersonalClient,
       StartupEvent.openAccountStore, StartupEvent.openDriveStore,
       StartupEvent.getAllAccounts, StartupEvent.openItemStore,
       StartupEvent.openTaskStore] ++
      (List.range n).map StartupEvent.startWorker ++
      [StartupEvent.enterSeedingLoop]
    ∧ eventBefore (main_trace n) StartupEvent.loadConfig
        StartupEvent.startNetworkMonitor = true
    ∧ eventBefore (main_trace n) StartupEvent.startNetworkMonitor
        StartupEvent.openAccountStore = true
    ∧ eventBefore (main_trace n) StartupEvent.openTaskStore
        StartupEvent.enterSeedingLoop = true
    ∧ (refill_tasks_run drives k pool).exitCode = 0 := by
  refine ⟨rfl, ?_, ?_, ?_, refill_tasks_run_exit_zero drives k pool⟩
  · simp [eventBefore, firstIdx, main_trace, load_user_config_trace,
      start_task_workers_trace]
  · simp [eventBefore, firstIdx, main_trace, load_user_config_trace,
      start_task_workers_trace]
  · have hw : (List.findIdx?
        ((fun x => decide (x = StartupEvent.enterSeedingLoop)) ∘
          StartupEvent.startWorker) (List.range n)) = none := by
      rw [List.findIdx?_eq_none_iff]
      intro x _
      simp [Function.comp]
    simp [eventBefore, firstIdx, main_trace, load_user_config_trace,
      start_task_workers_trace, hw]

end OneDriveD
